import Mathlib

/-!
# Verification of the tritonparse core components

Shallow embedding of the tritonparse repository's core components:

* `tritonparse/tools/load_tensor.py` — the integrity-checked blob loader;
* `tritonparse/reproducer/ingestion/ndjson.py` — the trace-event correlator
  (`get_launch_and_compilation_events`, `get_kernel_info`);
* `tritonparse/reproducer/utils.py` and `repro1.py` — the two copies of the
  typed-argument synthesizer `_create_arg_from_info`;
* the SASS source-mapping extractor `extract_sass_mappings` (modelled from the
  spec, since `tritonparse/ir_parser.py` is not part of the provided sources;
  its behaviour is pinned by `test_sass_parsing.py`).

Python strings are modelled as `String`/`List Char`; Python `None` as
`Option.none`; raised exceptions as `Except.error` values.  External library
primitives (the BLAKE2b digest, gzip decompression, `torch.load`, the file
system) are parameters of the model, so every theorem quantifies over them.
-/

deriving instance DecidableEq for Except

namespace TP

/-! ## Generic helpers for Python string operations -/

/-- Split a character list at every occurrence of the character `c`
(Python `str.split(c)` semantics: always at least one and possibly empty
components). -/
def splitOnChar (c : Char) : List Char → List (List Char)
  | [] => [[]]
  | x :: rest =>
    match splitOnChar c rest with
    | [] => [[]]
    | g :: gs => if x = c then [] :: g :: gs else (x :: g) :: gs

/-- `endsWithL s suf` : does `s` end with `suf`?  (Python `str.endswith`.) -/
def endsWithL (s suf : List Char) : Bool :=
  decide (suf.length ≤ s.length) && decide (s.drop (s.length - suf.length) = suf)

/-- Index of the last occurrence of `c` in the list (Python `str.rfind`). -/
def lastIdxOf (c : Char) : List Char → Option Nat
  | [] => none
  | x :: rest =>
    match lastIdxOf c rest with
    | some i => some (i + 1)
    | none => if x = c then some 0 else none

/-- `isSubstr pat s` : does `pat` occur as a contiguous substring of `s`?
(Python `pat in s`.) -/
def isSubstr (pat : List Char) : List Char → Bool
  | [] => pat.isEmpty
  | c :: rest => pat.isPrefixOf (c :: rest) || isSubstr pat rest

/-- `findSub pat s` : index of the first occurrence of `pat` in `s`,
`none` when absent (Python `str.find`, with `-1` mapped to `none`). -/
def findSub (pat : List Char) : List Char → Option Nat
  | [] => if pat.isEmpty then some 0 else none
  | c :: rest =>
    if pat.isPrefixOf (c :: rest) then some 0
    else (findSub pat rest).map (· + 1)

/-- Replace every occurrence of `pat` by `rep`, scanning left to right
(Python `str.replace`).  The `fuel` argument is an upper bound on the number
of characters still to be scanned; `pyReplace` supplies `s.length`, which is
always sufficient because each step consumes at least one character. -/
def replaceAllGo (pat rep : List Char) : Nat → List Char → List Char
  | _, [] => []
  | 0, s => s
  | fuel + 1, c :: rest =>
    if pat.isPrefixOf (c :: rest) then
      rep ++ replaceAllGo pat rep fuel ((c :: rest).drop pat.length)
    else
      c :: replaceAllGo pat rep fuel rest

/-- Python `s.replace(pat, rep)` for a non-empty `pat` (the only way the
repository calls it; the empty-pattern edge case is never exercised). -/
def pyReplace (s pat rep : List Char) : List Char :=
  if pat = [] then s else replaceAllGo pat rep s.length s

/-- Python truthiness for an optional string: `None` and `""` are falsy. -/
def truthyStr : Option String → Option String
  | none => none
  | some s => if s = "" then none else some s

/-! ## Python `pathlib` name handling -/

/-- `pathlib.PurePath.name`: the final path component. -/
def pyName (p : String) : String :=
  ⟨(splitOnChar '/' p.toList).getLastD []⟩

/-- `pathlib.PurePath.stem`: the final component without its last suffix.
The suffix starts at the last `'.'`, and only counts when that dot is
neither the first nor the last character of the name (pathlib semantics). -/
def pyStem (n : String) : String :=
  let cs := n.toList
  match lastIdxOf '.' cs with
  | some i => if 0 < i ∧ i + 1 < cs.length then ⟨cs.take i⟩ else n
  | none => n

/-- Python `str(path).endswith(suffix)`. -/
def endsWithPy (s suf : String) : Bool :=
  endsWithL s.toList suf.toList

/-! ## Integrity-checked blob loader (`tritonparse/tools/load_tensor.py`)

`load_tensor` reads the blob, decompresses it when the filename ends in
`.bin.gz`, derives the expected hash from the filename, computes the BLAKE2b
digest of the (decompressed) contents, raises `ValueError` on mismatch, and
only then deserializes via `torch.load`.  The file system and the external
primitives are fields of `LoadCtx`. -/

/-- External collaborators of `load_tensor`: the file system, gzip
(`none` = `gzip.decompress` raised), the BLAKE2b hex digest, and
`torch.load` from an in-memory buffer with a `map_location` device
(`none` = `torch.load` raised). -/
structure LoadCtx (α : Type) where
  fs : String → Option (List Nat)
  gzipDecompress : List Nat → Option (List Nat)
  blake2bHex : List Nat → String
  torchLoad : List Nat → Option String → Option α

/-- The exceptions `load_tensor` can raise: `FileNotFoundError`,
`RuntimeError` on decompression failure, `ValueError` on hash mismatch
(carrying both digests, in the order they appear in the message), and
`RuntimeError` on deserialization failure. -/
inductive LoadErr where
  | fileNotFound (path : String)
  | decompressError (path : String)
  | hashMismatch (expected computed : String)
  | loadFailed (path : String)
deriving DecidableEq

/-- Lines 41–53 of `load_tensor.py`: compression detection by the `.bin.gz`
suffix of the full path string, and in-memory decompression on that branch. -/
def load_contents {α : Type} (ctx : LoadCtx α) (path : String) (raw : List Nat) :
    Except LoadErr (List Nat) :=
  if endsWithPy path ".bin.gz" then
    match ctx.gzipDecompress raw with
    | some d => .ok d
    | none => .error (.decompressError path)
  else .ok raw

/-- Lines 55–61 of `load_tensor.py`: the expected hash derived from the
filename — `name.replace('.bin.gz', '')` for compressed blobs, `Path.stem`
otherwise. -/
def expected_hash (path : String) : String :=
  if endsWithPy path ".bin.gz" then
    ⟨pyReplace (pyName path).toList ".bin.gz".toList []⟩
  else pyStem (pyName path)

/-- `load_tensor(tensor_file_path, device)` from
`tritonparse/tools/load_tensor.py`. -/
def load_tensor {α : Type} (ctx : LoadCtx α) (path : String) (device : Option String) :
    Except LoadErr α :=
  match ctx.fs path with
  | none => .error (.fileNotFound path)
  | some raw =>
    match load_contents ctx path raw with
    | .error e => .error e
    | .ok contents =>
      let expected := expected_hash path
      let computed := ctx.blake2bHex contents
      if computed ≠ expected then .error (.hashMismatch expected computed)
      else
        match ctx.torchLoad contents device with
        | some t => .ok t
        | none => .error (.loadFailed path)

/-! ## Trace-event correlator (`tritonparse/reproducer/ingestion/ndjson.py`)

Trace events are parsed JSON objects; we model the fields the correlator
reads.  Every parsed event carries `event_type` (spec §6: each record carries
at minimum `event_type`); all other fields are optional. -/

/-- The `compilation_metadata` sub-object of a launch event (only its
`hash` key is read by the correlator). -/
structure CompMeta where
  hash : Option String
deriving DecidableEq

/-- The `payload.python_source` sub-object of a compilation event. -/
structure PySource where
  code : Option (List Char)
  file_path : Option String
deriving DecidableEq

/-- The `payload.metadata` sub-object of a compilation event (only its
`name` key is read). -/
structure PayloadMeta where
  name : Option String
deriving DecidableEq

/-- The `payload` sub-object of a compilation event. -/
structure Payload where
  python_source : Option PySource
  metadata : Option PayloadMeta
deriving DecidableEq

/-- One parsed trace event, restricted to the keys the correlator reads:
`event_type`, the top-level `hash` (compilation events), a launch event's
`compilation_metadata`, a compilation event's `payload`, and its `stack`.
Stack frames are copied verbatim, so they are modelled opaquely as strings. -/
structure Event where
  event_type : String
  hash : Option String
  compilation_metadata : Option CompMeta
  payload : Option Payload
  stack : Option (List String)
deriving DecidableEq

/-- Python list indexing `l[i]` for a possibly negative `int` index:
negative indices count from the end; `none` models an `IndexError`. -/
def pyIndex {α : Type} (l : List α) (i : Int) : Option α :=
  if 0 ≤ i then l.get? i.toNat
  else if 0 ≤ i + l.length then l.get? (i + l.length).toNat else none

/-- The exceptions `get_launch_and_compilation_events` can raise:
`ValueError` on an absent or too-large index, `IndexError` for a negative
index below `-len` (the unguarded `events[line_index]`), `ValueError` when
the indexed event is not a launch event, and `RuntimeError` for a missing,
unmatched, or ambiguous compilation hash. -/
inductive CorrErr where
  | invalidIndex
  | indexOutOfRange
  | notLaunch (i : Int)
  | missingHash
  | notFound (h : String)
  | ambiguous (h : String) (n : Nat)
deriving DecidableEq

/-- Does a compilation event match the launch event's hash?  (The filter
predicate of lines 46–50: `event["event_type"] == "compilation" and
event.get("hash") == comp_hash`.) -/
def compMatches (h : String) (e : Event) : Bool :=
  decide (e.event_type = "compilation" ∧ e.hash = some h)

/-- `get_launch_and_compilation_events(events, line_index)` from
`tritonparse/reproducer/ingestion/ndjson.py`.  The Python `if not comp_hash`
treats both a missing and an empty hash as absent, modelled by `truthyStr`. -/
def get_launch_and_compilation_events (events : List Event)
    (line_index : Option Int) : Except CorrErr (Event × Event) :=
  match line_index with
  | none => .error .invalidIndex
  | some i =>
    if (events.length : Int) ≤ i then .error .invalidIndex
    else
      match pyIndex events i with
      | none => .error .indexOutOfRange
      | some launch_event =>
        if launch_event.event_type ≠ "launch" then .error (.notLaunch i)
        else
          match truthyStr ((launch_event.compilation_metadata.getD ⟨none⟩).hash) with
          | none => .error .missingHash
          | some comp_hash =>
            let comp_event := events.filter (compMatches comp_hash)
            if comp_event = [] then .error (.notFound comp_hash)
            else if comp_event.length ≠ 1 then
              .error (.ambiguous comp_hash comp_event.length)
            else .ok (launch_event, comp_event.headD launch_event)

/-- Classifies the two failure shapes the spec calls an *index error*:
the `ValueError("Invalid line_index")` guard and the `IndexError` that
`events[line_index]` itself raises. -/
def isIndexError : Except CorrErr (Event × Event) → Bool
  | .error .invalidIndex => true
  | .error .indexOutOfRange => true
  | _ => false

/-! ## Kernel-identity extraction (`get_kernel_info`) -/

/-- The kernel-definition marker searched for in the compilation event's
source text (line 84 of `ndjson.py`). -/
def jitMarker : List Char := "@triton.jit".toList

/-- The `KernelInfo` dataclass of `ndjson.py`. -/
structure KernelInfo where
  file_path : String
  function_name : String
  source_code : List Char
  call_stack : List String
deriving DecidableEq

/-- The `RuntimeError` raised when the kernel identity cannot be resolved. -/
inductive KernelErr where
  | resolution
deriving DecidableEq

/-- `payload = comp_event.get("payload") or {}` (line 74). -/
def Event.payloadD (e : Event) : Payload := e.payload.getD ⟨none, none⟩

/-- `py_source = payload.get("python_source") or {}` (line 75). -/
def Event.pySourceD (e : Event) : PySource := e.payloadD.python_source.getD ⟨none, none⟩

/-- `code = py_source.get("code", "")` (line 76). -/
def Event.codeD (e : Event) : List Char := e.pySourceD.code.getD []

/-- `func_name = (comp_event.get("payload", {}).get("metadata") or {}).get("name")`
(line 81). -/
def Event.funcNameD (e : Event) : Option String := (e.payloadD.metadata.getD ⟨none⟩).name

/-- `get_kernel_info(comp_event)` from
`tritonparse/reproducer/ingestion/ndjson.py`: truncate the source at the
first `@triton.jit` when present, then fail unless both the file path and
the function name are truthy. -/
def get_kernel_info (e : Event) : Except KernelErr KernelInfo :=
  let code := e.codeD
  let code' :=
    match findSub jitMarker code with
    | some p => code.drop p
    | none => code
  match truthyStr e.pySourceD.file_path, truthyStr e.funcNameD with
  | some f, some n => .ok ⟨f, n, code', e.stack.getD []⟩
  | _, _ => .error .resolution

/-! ## Model of the torch dtype namespace

The synthesizer resolves dtype strings via `getattr(torch, ...)` and then
branches on properties of the resolved dtype.  We model the torch dtype
universe as a finite enumeration together with the attribute table
(including the standard aliases such as `torch.float` and `torch.long`),
`Tensor.is_floating_point()`, `Tensor.is_complex()` and `str(dtype)`. -/

inductive TorchDtype where
  | float16 | float32 | float64 | bfloat16
  | float8_e4m3fn | float8_e5m2
  | int8 | int16 | int32 | int64
  | uint8 | uint16 | uint32 | uint64
  | bool'
  | complex32 | complex64 | complex128
  | qint8 | quint8 | qint32
deriving DecidableEq

/-- `str(dtype)` for each modelled torch dtype. -/
def TorchDtype.str : TorchDtype → String
  | .float16 => "torch.float16"
  | .float32 => "torch.float32"
  | .float64 => "torch.float64"
  | .bfloat16 => "torch.bfloat16"
  | .float8_e4m3fn => "torch.float8_e4m3fn"
  | .float8_e5m2 => "torch.float8_e5m2"
  | .int8 => "torch.int8"
  | .int16 => "torch.int16"
  | .int32 => "torch.int32"
  | .int64 => "torch.int64"
  | .uint8 => "torch.uint8"
  | .uint16 => "torch.uint16"
  | .uint32 => "torch.uint32"
  | .uint64 => "torch.uint64"
  | .bool' => "torch.bool"
  | .complex32 => "torch.complex32"
  | .complex64 => "torch.complex64"
  | .complex128 => "torch.complex128"
  | .qint8 => "torch.qint8"
  | .quint8 => "torch.quint8"
  | .qint32 => "torch.qint32"

/-- `torch.empty(0, dtype=d).is_floating_point()`.  The float8 dtypes are
floating-point in torch, which is what routes them into the generic
`random_()` branch of the utils version. -/
def TorchDtype.isFloatingPoint : TorchDtype → Bool
  | .float16 | .float32 | .float64 | .bfloat16
  | .float8_e4m3fn | .float8_e5m2 => true
  | _ => false

/-- `torch.empty(0, dtype=d).is_complex()`. -/
def TorchDtype.isComplex : TorchDtype → Bool
  | .complex32 | .complex64 | .complex128 => true
  | _ => false

/-- `"uint" in str(torch_dtype)` (line 104 of `utils.py`). -/
def TorchDtype.hasUintStr (d : TorchDtype) : Bool :=
  isSubstr "uint".toList d.str.toList

/-- A value of the torch attribute namespace: either a dtype object, or
some other existing attribute of the `torch` module (a function, class or
submodule — `getattr` succeeds on these, but the result is not a dtype),
recorded by its name. -/
inductive TorchObj where
  | dtypeObj (d : TorchDtype)
  | otherObj (name : String)
deriving DecidableEq

/-- `getattr(torch, name)`: the dtype attributes (canonical names plus
torch's aliases), a representative sample of torch's non-dtype attributes
(on which `getattr` succeeds but the result is not a dtype), and `none` for
names that are no attribute of torch at all, modelling the raised
`AttributeError`.  Every name listed behaves exactly as the real `getattr`
does; the non-dtype sample stands for the module's many other attributes. -/
def torchAttr : String → Option TorchObj
  | "float16" => some (.dtypeObj .float16)
  | "half" => some (.dtypeObj .float16)
  | "float32" => some (.dtypeObj .float32)
  | "float" => some (.dtypeObj .float32)
  | "float64" => some (.dtypeObj .float64)
  | "double" => some (.dtypeObj .float64)
  | "bfloat16" => some (.dtypeObj .bfloat16)
  | "float8_e4m3fn" => some (.dtypeObj .float8_e4m3fn)
  | "float8_e5m2" => some (.dtypeObj .float8_e5m2)
  | "int8" => some (.dtypeObj .int8)
  | "int16" => some (.dtypeObj .int16)
  | "short" => some (.dtypeObj .int16)
  | "int32" => some (.dtypeObj .int32)
  | "int" => some (.dtypeObj .int32)
  | "int64" => some (.dtypeObj .int64)
  | "long" => some (.dtypeObj .int64)
  | "uint8" => some (.dtypeObj .uint8)
  | "uint16" => some (.dtypeObj .uint16)
  | "uint32" => some (.dtypeObj .uint32)
  | "uint64" => some (.dtypeObj .uint64)
  | "bool" => some (.dtypeObj .bool')
  | "complex32" => some (.dtypeObj .complex32)
  | "chalf" => some (.dtypeObj .complex32)
  | "complex64" => some (.dtypeObj .complex64)
  | "cfloat" => some (.dtypeObj .complex64)
  | "complex128" => some (.dtypeObj .complex128)
  | "cdouble" => some (.dtypeObj .complex128)
  | "qint8" => some (.dtypeObj .qint8)
  | "quint8" => some (.dtypeObj .quint8)
  | "qint32" => some (.dtypeObj .qint32)
  | "rand" => some (.otherObj "rand")
  | "randint" => some (.otherObj "randint")
  | "empty" => some (.otherObj "empty")
  | "zeros" => some (.otherObj "zeros")
  | "ones" => some (.otherObj "ones")
  | "tensor" => some (.otherObj "tensor")
  | "Tensor" => some (.otherObj "Tensor")
  | "nn" => some (.otherObj "nn")
  | "device" => some (.otherObj "device")
  | "complex" => some (.otherObj "complex")
  | "load" => some (.otherObj "load")
  | "save" => some (.otherObj "save")
  | _ => none

/-- `dtype_str.split(".")[-1]`. -/
def lastDotComp (s : String) : String :=
  ⟨(splitOnChar '.' s.toList).getLastD s.toList⟩

/-- Lines 71–75 of `utils.py` (identically lines 105–109 of `repro1.py`):
the `torch_dtype` local — `getattr(torch, dtype_str.split(".")[-1])` with
the `AttributeError` fallback to `torch.float32`.  A missing `dtype` raises
`AttributeError` inside the `try` (on `None.split`), so it also falls back
to `float32`.  When `getattr` succeeds with an existing non-dtype attribute
there is no `AttributeError`: the object is kept as is, and the subsequent
dtype-probing `torch.empty(0, dtype=...)` raises an uncaught `TypeError`. -/
def resolveDtype : Option String → TorchObj
  | none => .dtypeObj .float32
  | some s =>
    match torchAttr (lastDotComp s) with
    | some o => o
    | none => .dtypeObj .float32

/-- `getattr(torch, dtype_str.split(".")[-1])` with no surrounding `try`
(line 121 of `utils.py`): `none` models the uncaught `AttributeError`; an
existing non-dtype attribute is returned as is (the composite `Tensor`
constructor merely stores it). -/
def resolveDtypeStrict : Option String → Option TorchObj
  | none => none
  | some s => torchAttr (lastDotComp s)

/-- The dtype list of line 84–91 of `utils.py`: dtypes supported by
`Tensor.random_()` besides the floating-point ones. -/
def supportedRandomInts : List TorchDtype :=
  [.int8, .int16, .int32, .int64, .uint8, .bool']

/-! ## Typed-argument synthesizer (`_create_arg_from_info`)

The repository contains two copies of `_create_arg_from_info`:
`tritonparse/reproducer/utils.py` (the packaged version, with the
`triton_kernels` composite branches but no `blob_path` handling and no
float8 carve-out) and `repro1.py` (the generated-reproducer version, with
`blob_path` delegation to `load_tensor` and the `float8_e4m3fn`
wide-then-narrow carve-out).  Both are embedded.

Randomized tensor creation is modelled symbolically: an `ArgValue` records
which torch construction the code performs (`empty(...).random_()`,
`rand(...)` + `.to(...)`, `complex(rand, rand)`, `randint(...)`, or a
delegated `load_tensor(blob_path, device)` call). -/

/-- A Python scalar literal stored under the `value` key. -/
inductive PyLit where
  | pint (i : Int)
  | pbool (b : Bool)
deriving DecidableEq

/-- The non-recursive keys of an argument-descriptor JSON object. -/
structure ArgBase where
  type' : Option String
  value : Option PyLit
  dtype : Option String
  shape : Option (List Int)
  device : Option String
  blob_path : Option String
  shape_max : Option (List Int)
  initial_shape : Option (List Int)
deriving DecidableEq

mutual

/-- An argument-descriptor JSON object: the flat keys plus the recursive
`storage` / `data` / `layout` children used by the composite
`triton_kernels` variants.  A child is either absent (the key is missing or
holds `None`, constructor `OptArgInfo.absent`) or a nested descriptor
(`OptArgInfo.child`); the dedicated option type keeps the two mutually
inductive. -/
inductive ArgInfo where
  | mk (base : ArgBase) (storage data layout : OptArgInfo)

/-- A possibly-absent child descriptor. -/
inductive OptArgInfo where
  | absent
  | child (info : ArgInfo)

end

/-- The flat keys of a descriptor. -/
def ArgInfo.base : ArgInfo → ArgBase
  | .mk b _ _ _ => b

/-- The value `_create_arg_from_info` returns, recorded symbolically by the
construction performed. -/
inductive ArgValue where
  | scalar (v : Option PyLit)
  | loaded (path : String) (device : Option String)
  | randomFill (d : TorchDtype) (shape : List Int) (device : String)
  | randCast (wide narrow : TorchDtype) (shape : List Int) (device : String)
  | complexRand (fd : TorchDtype) (shape : List Int) (device : String)
  | randint (lo hi : Int) (d : TorchDtype) (shape : List Int) (device : String)
  | tkTensor (storage : ArgValue) (shape shape_max : Option (List Int)) (d : TorchObj)
  | tkStorage (data layout : ArgValue)
  | tkLayout (shape : Option (List Int))
  | noneVal
deriving DecidableEq

/-- The exceptions `_create_arg_from_info` can raise: the
`NotImplementedError` naming the dtype, the `RuntimeError` for a missing
optional dependency, an uncaught `AttributeError` (accessing a key of
`None` or a bad `getattr` outside the guarded branch), and the uncaught
`TypeError` that `torch.empty(0, dtype=...)` raises when the resolved
object is an existing torch attribute that is not a dtype (carrying that
attribute's name). -/
inductive ArgError where
  | notImplemented (d : TorchDtype)
  | missingDep (what : String)
  | attributeError
  | typeError (attr : String)
deriving DecidableEq

/-- A synthesizer result: the produced value together with the warnings the
call printed (only the unrecognized-`type` branch prints one). -/
abbrev ArgResult := Except ArgError (ArgValue × List String)

/-- The warning printed by the lenient unknown-`type` branch. -/
def warnUnhandled (t : Option String) : String :=
  "Unhandled argument type " ++ t.getD "None"

/-- Lines 71–111 of `utils.py`: the tensor-synthesis path of the packaged
`_create_arg_from_info` — dtype resolution, then the dtype-probing
`tensor_props = torch.empty(0, dtype=torch_dtype)`, which raises an
uncaught `TypeError` when the resolved object is not a dtype; otherwise
Case 1 admits every floating-point dtype (float8 included) and the
`random_()`-supported integer/bool dtypes, Case 2 complex, Case 3 the
remaining `uint` dtypes, Case 4 `NotImplementedError`. -/
def synthTensorU (dtype_str : Option String) (shape : List Int) (device : String) :
    Except ArgError ArgValue :=
  match resolveDtype dtype_str with
  | .otherObj n => .error (.typeError n)
  | .dtypeObj torch_dtype =>
    if torch_dtype.isFloatingPoint = true ∨ torch_dtype ∈ supportedRandomInts then
      .ok (.randomFill torch_dtype shape device)
    else if torch_dtype.isComplex = true then
      .ok (.complexRand
        (if torch_dtype = .complex64 then TorchDtype.float32 else TorchDtype.float64)
        shape device)
    else if torch_dtype.hasUintStr = true then
      .ok (.randint 0 1000 torch_dtype shape device)
    else
      .error (.notImplemented torch_dtype)

/-- Lines 105–150 of `repro1.py`: the tensor-synthesis path of the
generated-reproducer `_create_arg_from_info` — dtype resolution, the same
dtype-probing `torch.empty(0, dtype=torch_dtype)` (uncaught `TypeError` on
a non-dtype), then the categories; the floating-point case carves out
`float8_e4m3fn`: generate `torch.rand` at `float32`, then downcast with
`.to(torch.float8_e4m3fn)`. -/
def synthTensorR (dtype_str : Option String) (shape : List Int) (device : String) :
    Except ArgError ArgValue :=
  match resolveDtype dtype_str with
  | .otherObj n => .error (.typeError n)
  | .dtypeObj torch_dtype =>
    if torch_dtype.isFloatingPoint = true then
      if torch_dtype ∈ [TorchDtype.float8_e4m3fn] then
        .ok (.randCast .float32 .float8_e4m3fn shape device)
      else .ok (.randomFill torch_dtype shape device)
    else if torch_dtype ∈ supportedRandomInts then
      .ok (.randomFill torch_dtype shape device)
    else if torch_dtype.isComplex = true then
      .ok (.complexRand
        (if torch_dtype = .complex64 then TorchDtype.float32 else TorchDtype.float64)
        shape device)
    else if torch_dtype.hasUintStr = true then
      .ok (.randint 0 1000 torch_dtype shape device)
    else
      .error (.notImplemented torch_dtype)

mutual

/-- `_create_arg_from_info(arg_info)` from
`tritonparse/reproducer/utils.py` (lines 61–149).  `tk` is the module-level
`TRITON_KERNELS_CUSTOM_TYPES` availability flag.  Note: this version has no
`blob_path` branch — a `tensor` descriptor is always synthesized.  The
composite `triton_kernels` branches recurse through `createArgUOpt`, which
models passing `arg_info.get("storage")` (and so on) to the recursive call:
an absent child raises `AttributeError` inside that call. -/
def createArgU (tk : Bool) : ArgInfo → ArgResult
  | .mk b storage data layout =>
    if b.type' = some "int" ∨ b.type' = some "bool" then
      .ok (.scalar b.value, [])
    else if b.type' = some "tensor" then
      match synthTensorU b.dtype (b.shape.getD []) (b.device.getD "cpu") with
      | .ok v => .ok (v, [])
      | .error e => .error e
    else if b.type' = some "triton_kernels.tensor.Tensor" then
      if tk = false then .error (.missingDep "triton_kernels.tensor")
      else
        match createArgUOpt tk storage with
        | .error e => .error e
        | .ok (sv, w₁) =>
          match resolveDtypeStrict b.dtype with
          | none => .error .attributeError
          | some d => .ok (.tkTensor sv b.shape b.shape_max d, w₁)
    else if b.type' = some "triton_kernels.tensor.Storage" then
      if tk = false then .error (.missingDep "triton_kernels.tensor")
      else
        match createArgUOpt tk data with
        | .error e => .error e
        | .ok (dv, w₁) =>
          match createArgUOpt tk layout with
          | .error e => .error e
          | .ok (lv, w₂) => .ok (.tkStorage dv lv, w₁ ++ w₂)
    else if b.type' = some "StridedLayout" then
      if tk = false then .error (.missingDep "triton_kernels.tensor")
      else .ok (.tkLayout b.initial_shape, [])
    else
      .ok (.noneVal, [warnUnhandled b.type'])

/-- Recursive entry for a child descriptor: Python crashes with
`AttributeError` when the child is `None` (calling `.get` on `None`). -/
def createArgUOpt (tk : Bool) : OptArgInfo → ArgResult
  | .absent => .error .attributeError
  | .child info => createArgU tk info

end

/-- `_create_arg_from_info(arg_info)` from `repro1.py` (lines 93–154).
A `tensor` descriptor with a truthy `blob_path` delegates to
`load_tensor(blob_path, device)`; otherwise it is synthesized by dtype
category. -/
def createArgR : ArgInfo → ArgResult
  | .mk b _ _ _ =>
    if b.type' = some "int" ∨ b.type' = some "bool" then
      .ok (.scalar b.value, [])
    else if b.type' = some "tensor" then
      match truthyStr b.blob_path with
      | some p => .ok (.loaded p b.device, [])
      | none =>
        match synthTensorR b.dtype (b.shape.getD []) (b.device.getD "cpu") with
        | .ok v => .ok (v, [])
        | .error e => .error e
    else .ok (.noneVal, [warnUnhandled b.type'])

/-! ## Claims C1, C6, C9 and C10 about the synthesizer -/

/-- A `tensor` descriptor that carries a `blob_path` (the input on which the
packaged `utils.py` synthesizer and the generated `repro1.py` synthesizer
diverge). -/
def blobTensorInfo : ArgInfo :=
  .mk ⟨some "tensor", none, some "torch.float32", some [4], some "cpu",
       some "aa.bin", none, none⟩ .absent .absent .absent

/-- A `tensor` descriptor with the 8-bit narrow float dtype
`torch.float8_e4m3fn` and no blob reference. -/
def float8TensorInfo : ArgInfo :=
  .mk ⟨some "tensor", none, some "torch.float8_e4m3fn", some [2], some "cpu",
       none, none, none⟩ .absent .absent .absent

/-- A `tensor` descriptor whose dtype string names `torch.rand` — an
existing attribute of the torch module that is not a dtype. -/
def randAttrTensorInfo : ArgInfo :=
  .mk ⟨some "tensor", none, some "torch.rand", some [3], some "cpu",
       none, none, none⟩ .absent .absent .absent

/-! ## IR/Assembly source-mapping extractor (SASS dialect)

Modelled from the spec: `extract_sass_mappings` lives in
`tritonparse/ir_parser.py`, which is not among the provided sources — only
its test (`test_sass_parsing.py`) is.  The model follows §4.1 of the spec:
scan lines sequentially keeping a "pending source location"; an annotation
line `//## File "<path>", line <n>[:<col>]` updates the pending location
unless the path is a known-internal placeholder (`.nv_debug_ptx_txt`), in
which case it is skipped outright; a generated-code line (recognized by its
`/*addr*/` instruction marker) is recorded under its own 1-based line
number with the pending location; column defaults to 0. -/

/-- A source location carried by a debug annotation. -/
structure SrcLoc where
  file : String
  line : Nat
  column : Nat
deriving DecidableEq

/-- One emitted source-mapping entry `{file, line, column, sass_line}`. -/
structure SassEntry where
  file : String
  line : Nat
  column : Nat
  sass_line : Nat
deriving DecidableEq

/-- Strip leading spaces and tabs. -/
def dropWS : List Char → List Char
  | [] => []
  | c :: rest => if c = ' ' ∨ c = '\t' then dropWS rest else c :: rest

/-- Strip an exact prefix, returning the remainder. -/
def stripPre : List Char → List Char → Option (List Char)
  | [], rest => some rest
  | _ :: _, [] => none
  | p :: ps, c :: cs => if p = c then stripPre ps cs else none

/-- Split at the next double quote: the text before it and the remainder
after it. -/
def spanToQuote : List Char → Option (List Char × List Char)
  | [] => none
  | c :: cs =>
    if c = '"' then some ([], cs)
    else
      match spanToQuote cs with
      | some (f, r) => some (c :: f, r)
      | none => none

/-- The leading run of digits and the remainder. -/
def takeDigits : List Char → List Char × List Char
  | [] => ([], [])
  | c :: cs =>
    if c.isDigit then
      match takeDigits cs with
      | (d, r) => (c :: d, r)
    else ([], c :: cs)

/-- Decimal value of a digit run. -/
def digitsToNat (ds : List Char) : Nat :=
  ds.foldl (fun a c => a * 10 + (c.toNat - 48)) 0

/-- Modelled from the spec: parse one debug-annotation line of the SASS
dialect, `//## File "<path>", line <n>[:<col>]` after leading whitespace;
the column defaults to 0 when omitted. -/
def parseSassAnn (l : List Char) : Option SrcLoc :=
  match stripPre "//## File \"".toList (dropWS l) with
  | none => none
  | some rest =>
    match spanToQuote rest with
    | none => none
    | some (file, rest₂) =>
      match stripPre ", line ".toList rest₂ with
      | none => none
      | some rest₃ =>
        match takeDigits rest₃ with
        | ([], _) => none
        | (ds, rest₄) =>
          match rest₄ with
          | ':' :: rest₅ =>
            match takeDigits rest₅ with
            | ([], _) => some ⟨⟨file⟩, digitsToNat ds, 0⟩
            | (cs, _) => some ⟨⟨file⟩, digitsToNat ds, digitsToNat cs⟩
          | _ => some ⟨⟨file⟩, digitsToNat ds, 0⟩

/-- The extractor's known-internal placeholder files (the PTX-text marker
used by the lowering pass). -/
def internalFiles : List String := [".nv_debug_ptx_txt"]

/-- Is this annotation path one of the internal placeholders? -/
def isInternal (f : String) : Bool :=
  decide (f ∈ internalFiles)

/-- Modelled from the spec: a generated-code line of the SASS dialect is
recognized structurally by its `/*addr*/` instruction marker. -/
def hasAddrMarker (l : List Char) : Bool :=
  isSubstr "/*".toList l

/-- How one line updates the pending source location: a non-internal
annotation overwrites it, an internal annotation is skipped, any other
line leaves it unchanged. -/
def sassStep (p : Option SrcLoc) (l : List Char) : Option SrcLoc :=
  match parseSassAnn l with
  | some loc => if isInternal loc.file then p else some loc
  | none => p

/-- The line scan: `i` is the 1-based number of the first line of `lines`,
`p` the pending source location. -/
def sassScan : List (List Char) → Nat → Option SrcLoc → List (Nat × SassEntry)
  | [], _, _ => []
  | l :: rest, i, p =>
    match parseSassAnn l with
    | some loc =>
      sassScan rest (i + 1) (if isInternal loc.file then p else some loc)
    | none =>
      if hasAddrMarker l then
        match p with
        | some loc => (i, ⟨loc.file, loc.line, loc.column, i⟩) :: sassScan rest (i + 1) p
        | none => sassScan rest (i + 1) p
      else sassScan rest (i + 1) p

/-- Modelled from the spec: `extract_sass_mappings(sass_content)` — scan the
text line by line (1-based) and collect the entries keyed by generated-line
number. -/
def extract_sass_mappings (text : String) : List (Nat × SassEntry) :=
  sassScan (splitOnChar '\n' text.toList) 1 none

/-- Lookup by generated-line number in the mapping. -/
def lookupN (n : Nat) : List (Nat × SassEntry) → Option SassEntry
  | [] => none
  | (k, v) :: rest => if n = k then some v else lookupN n rest

/-- The pending location after scanning a list of lines, starting from `p`. -/
def pendAfter (p : Option SrcLoc) : List (List Char) → Option SrcLoc
  | [] => p
  | l :: rest => pendAfter (sassStep p l) rest

/-- The non-internal annotations of a list of lines, in order: the claim's
"non-internal source annotations".  The last one of `ls.take k` is the
nearest non-internal annotation preceding line index `k`. -/
def nonInternalAnns (ls : List (List Char)) : List SrcLoc :=
  (ls.filterMap parseSassAnn).filter (fun loc => !(isInternal loc.file))

/-- `lastOr xs p`: the last element of `xs`, or `p` when `xs` is empty. -/
def lastOr (xs : List SrcLoc) (p : Option SrcLoc) : Option SrcLoc :=
  match xs.getLast? with
  | some x => some x
  | none => p

/-! ## Claims C2 and C8 about the blob loader -/

/-- **C2** — For any blob file whose filename-derived expected hash differs
from the BLAKE2b digest of its decompressed contents, `load_tensor` raises a
hash-mismatch error that names both the expected and the computed digest,
never returns a buffer, and this check is performed before any
deserialization of the bytes (the result is the same error for every
possible deserializer `torch.load`). -/
theorem load_tensor_hash_mismatch {α : Type} (ctx : LoadCtx α) (path : String)
    (device : Option String) (raw contents : List Nat)
    (hfs : ctx.fs path = some raw)
    (hc : load_contents ctx path raw = .ok contents)
    (hne : ctx.blake2bHex contents ≠ expected_hash path) :
    load_tensor ctx path device =
      .error (.hashMismatch (expected_hash path) (ctx.blake2bHex contents)) ∧
    ∀ g : List Nat → Option String → Option α,
      load_tensor { ctx with torchLoad := g } path device =
        .error (.hashMismatch (expected_hash path) (ctx.blake2bHex contents)) := by
  have key : ∀ tl : List Nat → Option String → Option α,
      load_tensor { ctx with torchLoad := tl } path device =
        .error (.hashMismatch (expected_hash path) (ctx.blake2bHex contents)) := by
    intro tl
    have hc' : load_contents { ctx with torchLoad := tl } path raw = .ok contents := hc
    simp only [load_tensor, hfs, hc']
    simp [hne]
  have hctx : ctx = { ctx with torchLoad := ctx.torchLoad } := rfl
  exact ⟨by rw [hctx]; exact key ctx.torchLoad, key⟩

/-- Concrete instance of `load_tensor_hash_mismatch`: an uncompressed blob
named `aa.bin` whose contents hash to `bb` fails with a mismatch error
naming both digests. -/
theorem load_tensor_hash_mismatch_witness :
    load_tensor
      { fs := fun p => if p = "aa.bin" then some [1, 2] else none,
        gzipDecompress := fun _ => none,
        blake2bHex := fun _ => "bb",
        torchLoad := fun b _ => some b } "aa.bin" none =
      .error (.hashMismatch "aa" "bb") := by
  have h := (load_tensor_hash_mismatch
      { fs := fun p => if p = "aa.bin" then some [1, 2] else none,
        gzipDecompress := fun _ => none,
        blake2bHex := fun _ => "bb",
        torchLoad := fun b _ => some b } "aa.bin" none [1, 2] [1, 2]
      (by simp) (by decide) (by decide)).1
  simpa using h

/-- **C8** — For every pair of a compressed (`.bin.gz`) and an uncompressed
(`.bin`) blob file whose decompressed contents are byte-identical and whose
filename-derived hashes both equal the digest of those contents,
`load_tensor` returns bit-identical buffers for both: whenever
deserialization of the shared contents yields `t`, both the compressed path
(read, decompress, verify, deserialize) and the uncompressed path
(read, verify, deserialize) return exactly `t`. -/
theorem load_tensor_compression_equiv {α : Type} (ctx : LoadCtx α)
    (p₁ p₂ : String) (device : Option String) (B C : List Nat) (h : String)
    (h₁ : endsWithPy p₁ ".bin.gz" = false)
    (h₂ : endsWithPy p₂ ".bin.gz" = true)
    (hf₁ : ctx.fs p₁ = some B) (hf₂ : ctx.fs p₂ = some C)
    (hd : ctx.gzipDecompress C = some B)
    (hb : ctx.blake2bHex B = h)
    (he₁ : expected_hash p₁ = h) (he₂ : expected_hash p₂ = h) :
    ∀ t : α, ctx.torchLoad B device = some t →
      load_tensor ctx p₁ device = .ok t ∧ load_tensor ctx p₂ device = .ok t := by
  intro t ht
  have hc₁ : load_contents ctx p₁ B = .ok B := by
    simp [load_contents, h₁]
  have hc₂ : load_contents ctx p₂ C = .ok B := by
    simp [load_contents, h₂, hd]
  constructor
  · simp [load_tensor, hf₁, hc₁, hb, he₁, ht]
  · simp [load_tensor, hf₂, hc₂, hb, he₂, ht]

/-- Concrete instance of `load_tensor_compression_equiv`: the pair
`aa.bin` / `aa.bin.gz` with identical decompressed contents `[1, 2]`
loads to the same buffer on both paths. -/
theorem load_tensor_compression_equiv_witness :
    load_tensor
      { fs := fun p =>
          if p = "aa.bin" then some [1, 2]
          else if p = "aa.bin.gz" then some [9] else none,
        gzipDecompress := fun b => if b = [9] then some [1, 2] else none,
        blake2bHex := fun _ => "aa",
        torchLoad := fun b _ => some b } "aa.bin" none = .ok [1, 2] ∧
    load_tensor
      { fs := fun p =>
          if p = "aa.bin" then some [1, 2]
          else if p = "aa.bin.gz" then some [9] else none,
        gzipDecompress := fun b => if b = [9] then some [1, 2] else none,
        blake2bHex := fun _ => "aa",
        torchLoad := fun b _ => some b } "aa.bin.gz" none = .ok [1, 2] :=
  load_tensor_compression_equiv _ "aa.bin" "aa.bin.gz" none [1, 2] [9] "aa"
    (by decide) (by decide) (by simp) (by simp) (by simp) rfl
    (by decide) (by decide) [1, 2] rfl

/-- Python indexing only succeeds below the list length. -/
theorem pyIndex_lt {α : Type} {l : List α} {i : Int} {a : α}
    (h : pyIndex l i = some a) : i < (l.length : Int) := by
  unfold pyIndex at h
  by_cases h0 : 0 ≤ i
  · simp only [if_pos h0] at h
    have hlt : i.toNat < l.length := by
      by_contra hge
      push_neg at hge
      rw [List.get?_eq_none.mpr hge] at h
      exact Option.noConfusion h
    omega
  · push_neg at h0
    have hn : (0 : Int) ≤ (l.length : Int) := Int.natCast_nonneg _
    omega

/-! ## Claims C3 and C4 about the correlator -/

/-- **C3** — Given a launch event carrying a compilation hash, the correlator
fails with a not-found error when zero compilation events in the event list
carry that hash, fails with an ambiguity error when more than one does, and
never returns a pair unless exactly one compilation event matches. -/
theorem correlator_not_found_and_ambiguity (events : List Event) (i : Int)
    (launch_event : Event) (h : String)
    (hget : pyIndex events i = some launch_event)
    (htype : launch_event.event_type = "launch")
    (hhash : truthyStr ((launch_event.compilation_metadata.getD ⟨none⟩).hash) = some h) :
    (events.filter (compMatches h) = [] →
       get_launch_and_compilation_events events (some i) = .error (.notFound h)) ∧
    (1 < (events.filter (compMatches h)).length →
       get_launch_and_compilation_events events (some i) =
         .error (.ambiguous h (events.filter (compMatches h)).length)) ∧
    (∀ pr : Event × Event,
       get_launch_and_compilation_events events (some i) = .ok pr →
       (events.filter (compMatches h)).length = 1) := by
  have hlt : ¬ ((events.length : Int) ≤ i) := by
    have := pyIndex_lt hget
    omega
  have hrun : get_launch_and_compilation_events events (some i) =
      (if events.filter (compMatches h) = [] then .error (.notFound h)
       else if (events.filter (compMatches h)).length ≠ 1 then
         .error (.ambiguous h (events.filter (compMatches h)).length)
       else .ok (launch_event, (events.filter (compMatches h)).headD launch_event)) := by
    simp only [get_launch_and_compilation_events, if_neg hlt, hget, htype, hhash]
    simp
  refine ⟨?_, ?_, ?_⟩
  · intro hnil
    rw [hrun, if_pos hnil]
  · intro hgt
    have hne : events.filter (compMatches h) ≠ [] := by
      intro heq
      rw [heq] at hgt
      simp at hgt
    rw [hrun, if_neg hne, if_pos (by omega)]
  · intro pr hok
    rw [hrun] at hok
    by_cases hnil : events.filter (compMatches h) = []
    · rw [if_pos hnil] at hok
      exact Except.noConfusion hok
    · rw [if_neg hnil] at hok
      by_cases hone : (events.filter (compMatches h)).length ≠ 1
      · rw [if_pos hone] at hok
        exact Except.noConfusion hok
      · omega

/-- Concrete instance of `correlator_not_found_and_ambiguity`: a single
launch event whose hash `H` matches no compilation event yields the
not-found error. -/
theorem correlator_not_found_witness :
    get_launch_and_compilation_events
      [⟨"launch", none, some ⟨some "H"⟩, none, none⟩] (some 0) =
      .error (.notFound "H") :=
  (correlator_not_found_and_ambiguity
      [⟨"launch", none, some ⟨some "H"⟩, none, none⟩] 0
      ⟨"launch", none, some ⟨some "H"⟩, none, none⟩ "H"
      (by decide) rfl (by decide)).1 (by decide)

/-- **C4** — For every event list and index, the correlator fails with an
index error when the index is absent or out of bounds of the event list
(above `len - 1` or, following Python's negative-index convention, below
`-len`), and fails with a type error when the event at that index is not
tagged `launch`. -/
theorem correlator_index_and_type_errors (events : List Event) (li : Option Int) :
    ((li = none ∨
        ∃ i, li = some i ∧ ((events.length : Int) ≤ i ∨ i + events.length < 0)) →
       isIndexError (get_launch_and_compilation_events events li) = true) ∧
    (∀ (i : Int) (e : Event), li = some i → pyIndex events i = some e →
       e.event_type ≠ "launch" →
       get_launch_and_compilation_events events li = .error (.notLaunch i)) := by
  constructor
  · rintro (rfl | ⟨i, rfl, hout⟩)
    · rfl
    · rcases hout with hge | hneg
      · simp [get_launch_and_compilation_events, if_pos hge, isIndexError]
      · have hlt : ¬ ((events.length : Int) ≤ i) := by omega
        have hnone : pyIndex events i = none := by
          unfold pyIndex
          rw [if_neg (by omega : ¬ (0 : Int) ≤ i), if_neg (by omega : ¬ (0 : Int) ≤ i + events.length)]
        simp [get_launch_and_compilation_events, if_neg hlt, hnone, isIndexError]
  · intro i e hli hget htype
    subst hli
    have hlt : ¬ ((events.length : Int) ≤ i) := by
      have := pyIndex_lt hget
      omega
    simp [get_launch_and_compilation_events, if_neg hlt, hget, htype]

/-- Concrete instance of `correlator_index_and_type_errors`: index 0 over a
single compilation event is a type error, and index 3 (out of bounds) is an
index error. -/
theorem correlator_index_and_type_errors_witness :
    get_launch_and_compilation_events
      [⟨"compilation", some "H", none, none, none⟩] (some 0) =
      .error (.notLaunch 0) ∧
    isIndexError (get_launch_and_compilation_events
      [⟨"compilation", some "H", none, none, none⟩] (some 3)) = true :=
  ⟨(correlator_index_and_type_errors
      [⟨"compilation", some "H", none, none, none⟩] (some 0)).2 0
      ⟨"compilation", some "H", none, none, none⟩ rfl (by decide) (by decide),
   (correlator_index_and_type_errors
      [⟨"compilation", some "H", none, none, none⟩] (some 3)).1
      (Or.inr ⟨3, rfl, Or.inl (by decide)⟩)⟩

/-- A successful `findSub` really points at an occurrence: the pattern is a
prefix of the suffix starting there. -/
theorem findSub_drop {pat s : List Char} {p : Nat} (h : findSub pat s = some p) :
    pat.isPrefixOf (s.drop p) = true := by
  induction s generalizing p with
  | nil =>
    unfold findSub at h
    by_cases hp : pat.isEmpty
    · rw [if_pos hp] at h
      cases h
      cases pat with
      | nil => rfl
      | cons a l => simp [List.isEmpty] at hp
    · rw [if_neg hp] at h
      exact Option.noConfusion h
  | cons c rest ih =>
    unfold findSub at h
    by_cases hpre : pat.isPrefixOf (c :: rest) = true
    · rw [if_pos hpre] at h
      cases h
      exact hpre
    · rw [if_neg hpre] at h
      obtain ⟨q, hq, hp⟩ := Option.map_eq_some'.mp h
      subst hp
      rw [List.drop_succ_cons]
      exact ih hq

/-! ## Claim C7 about kernel-identity extraction -/

/-- **C7** — `extract_kernel_info` returns `source_code` truncated to start
at the kernel-definition marker `@triton.jit` whenever the marker occurs in
the compilation event's source text (everything before it is dropped, and
the returned text starts with the marker), and fails with a resolution
error when either the file path or the function name is absent from the
compilation event. -/
theorem kernel_info_truncation_and_resolution (e : Event) :
    (∀ (p : Nat) (f n : String),
       findSub jitMarker e.codeD = some p →
       truthyStr e.pySourceD.file_path = some f →
       truthyStr e.funcNameD = some n →
       get_kernel_info e = .ok ⟨f, n, e.codeD.drop p, e.stack.getD []⟩ ∧
       jitMarker.isPrefixOf (e.codeD.drop p) = true) ∧
    ((e.pySourceD.file_path = none ∨ e.funcNameD = none) →
       get_kernel_info e = .error .resolution) := by
  constructor
  · intro p f n hp hf hn
    refine ⟨?_, findSub_drop hp⟩
    simp only [get_kernel_info, hp, hf, hn]
  · intro habs
    unfold get_kernel_info
    rcases habs with h1 | h1
    · rw [h1]
      cases truthyStr e.funcNameD <;> simp [truthyStr]
    · rw [h1]
      cases truthyStr e.pySourceD.file_path <;> simp [truthyStr]

/-- Concrete instance of `kernel_info_truncation_and_resolution`: the
boilerplate before `@triton.jit` is dropped from the returned source. -/
theorem kernel_info_truncation_witness :
    get_kernel_info
      ⟨"compilation", some "H", none,
       some ⟨some ⟨some "x\n@triton.jit\ndef k(): pass".toList, some "a.py"⟩,
             some ⟨some "k"⟩⟩, none⟩ =
      .ok ⟨"a.py", "k", "@triton.jit\ndef k(): pass".toList, []⟩ :=
  ((kernel_info_truncation_and_resolution
      ⟨"compilation", some "H", none,
       some ⟨some ⟨some "x\n@triton.jit\ndef k(): pass".toList, some "a.py"⟩,
             some ⟨some "k"⟩⟩, none⟩).1 2 "a.py" "k"
    (by decide) (by decide) (by decide)).1

/-- **C1 counterexample** — On a `tensor` descriptor carrying
`blob_path = "aa.bin"`, the packaged `_create_arg_from_info`
(`tritonparse/reproducer/utils.py`) synthesizes a random `float32` buffer
and does not return the Blob Loader's output for that path: the claim is
false for that copy of the synthesizer. -/
theorem utils_ignores_blob_path :
    createArgU true blobTensorInfo = .ok (.randomFill .float32 [4] "cpu", []) ∧
    createArgU true blobTensorInfo ≠ .ok (.loaded "aa.bin" (some "cpu"), []) := by
  decide

/-- **C1 (amended)** — In the generated reproducer (`repro1.py`), for every
argument descriptor of type `tensor` that carries a (truthy) `blob_path`,
`_create_arg_from_info` returns exactly the Blob Loader's output for that
path and device — it delegates to `load_tensor` and performs no random
synthesis. -/
theorem repro1_blob_delegation (b : ArgBase) (st dt ly : OptArgInfo) (p : String)
    (ht : b.type' = some "tensor") (hb : truthyStr b.blob_path = some p) :
    createArgR (.mk b st dt ly) = .ok (.loaded p b.device, []) := by
  simp [createArgR, ht, hb]

/-- Concrete instance of `repro1_blob_delegation`. -/
theorem repro1_blob_delegation_witness :
    createArgR blobTensorInfo = .ok (.loaded "aa.bin" (some "cpu"), []) :=
  repro1_blob_delegation
    ⟨some "tensor", none, some "torch.float32", some [4], some "cpu",
     some "aa.bin", none, none⟩ .absent .absent .absent "aa.bin" rfl (by decide)

/-- **C6 counterexample** — On a `float8_e4m3fn` tensor descriptor, the
packaged `_create_arg_from_info` (`utils.py`) routes the dtype through the
generic `random_()` fill (float8 is floating-point, so Case 1 applies) and
performs no wider-precision generation followed by a down-cast: the claim
is false for that copy of the synthesizer. -/
theorem utils_float8_direct_fill :
    createArgU true float8TensorInfo =
      .ok (.randomFill .float8_e4m3fn [2] "cpu", []) ∧
    createArgU true float8TensorInfo ≠
      .ok (.randCast .float32 .float8_e4m3fn [2] "cpu", []) := by
  decide

/-- **C6 (amended)** — In the generated reproducer (`repro1.py`), for a
`tensor` descriptor (without blob reference) whose resolved dtype is the
8-bit narrow float `float8_e4m3fn`, `_create_arg_from_info` generates
random data at the wider `float32` precision via `torch.rand` and then
down-casts to `float8_e4m3fn`, rather than filling the narrow dtype
directly with the generic `random_()` path. -/
theorem repro1_float8_widecast (b : ArgBase) (st dt ly : OptArgInfo)
    (ht : b.type' = some "tensor") (hb : truthyStr b.blob_path = none)
    (hd : resolveDtype b.dtype = .dtypeObj .float8_e4m3fn) :
    createArgR (.mk b st dt ly) =
      .ok (.randCast .float32 .float8_e4m3fn (b.shape.getD []) (b.device.getD "cpu"), []) := by
  have h2 : synthTensorR b.dtype (b.shape.getD []) (b.device.getD "cpu") =
      .ok (.randCast .float32 .float8_e4m3fn (b.shape.getD []) (b.device.getD "cpu")) := by
    unfold synthTensorR
    rw [hd]
    rfl
  have h1 : ¬ (b.type' = some "int" ∨ b.type' = some "bool") := by
    rw [ht]
    simp
  rw [createArgR, if_neg h1, if_pos ht, hb, h2]

/-- Concrete instance of `repro1_float8_widecast`. -/
theorem repro1_float8_widecast_witness :
    createArgR float8TensorInfo =
      .ok (.randCast .float32 .float8_e4m3fn [2] "cpu", []) :=
  repro1_float8_widecast
    ⟨some "tensor", none, some "torch.float8_e4m3fn", some [2], some "cpu",
     none, none, none⟩ .absent .absent .absent rfl (by decide) (by decide)

set_option maxHeartbeats 2000000 in
/-- **C9** — For every tensor descriptor whose resolved dtype falls outside
all supported numeric categories (not floating-point, not one of the
`random_()`-supported signed integer / uint8 / bool dtypes, not complex,
and not a wider unsigned integer reached by the `"uint" in str(dtype)`
test), the packaged `_create_arg_from_info` fails with a not-implemented
error naming that dtype — it never returns a zero-filled, default, or null
buffer for such a category. -/
theorem utils_unsupported_dtype_error (tk : Bool) (b : ArgBase)
    (st dt ly : OptArgInfo) (d : TorchDtype)
    (ht : b.type' = some "tensor")
    (hres : resolveDtype b.dtype = .dtypeObj d)
    (hf : d.isFloatingPoint = false)
    (hi : d ∉ supportedRandomInts)
    (hc : d.isComplex = false)
    (hu : d.hasUintStr = false) :
    createArgU tk (.mk b st dt ly) = .error (.notImplemented d) := by
  have h1 : ¬ (b.type' = some "int" ∨ b.type' = some "bool") := by
    rw [ht]
    simp
  have h2 : synthTensorU b.dtype (b.shape.getD []) (b.device.getD "cpu") =
      .error (.notImplemented d) := by
    have c1 : ¬ (d.isFloatingPoint = true ∨ d ∈ supportedRandomInts) := by
      rintro (h | h)
      · rw [hf] at h
        exact Bool.noConfusion h
      · exact hi h
    have c2 : ¬ (d.isComplex = true) := by
      rw [hc]
      exact Bool.noConfusion
    have c3 : ¬ (d.hasUintStr = true) := by
      rw [hu]
      exact Bool.noConfusion
    unfold synthTensorU
    simp only [hres]
    rw [if_neg c1, if_neg c2, if_neg c3]
  rw [createArgU, if_neg h1, if_pos ht, h2]

/-- Concrete instance of `utils_unsupported_dtype_error`: the quantized
dtype `torch.qint8` is outside every supported category and raises the
named `NotImplementedError`. -/
theorem utils_unsupported_dtype_error_witness :
    createArgU true
      (.mk ⟨some "tensor", none, some "torch.qint8", some [2], some "cpu",
            none, none, none⟩ .absent .absent .absent) =
      .error (.notImplemented .qint8) :=
  utils_unsupported_dtype_error true
    ⟨some "tensor", none, some "torch.qint8", some [2], some "cpu",
     none, none, none⟩ .absent .absent .absent .qint8 rfl (by decide)
    (by decide) (by decide) (by decide) (by decide)

set_option maxHeartbeats 2000000 in
/-- **C10 (amended)** — For a tensor descriptor whose dtype string's last
component names no attribute of the torch module at all (so `getattr`
raises `AttributeError`), materialization does not fail: both copies of
`_create_arg_from_info` silently substitute `float32` and synthesize a
`float32` buffer of the declared shape, emitting no warning and raising no
error about the unrecognized dtype string (the `repro1.py` copy, which
first checks `blob_path`, does so whenever the descriptor has no truthy
blob reference).  This silent fallback does not extend to dtype strings
naming an existing non-dtype torch attribute: there `getattr` succeeds and
materialization crashes — see the counterexample. -/
theorem unresolved_dtype_silently_float32 (tk : Bool) (b : ArgBase)
    (st dt ly : OptArgInfo) (s : String)
    (ht : b.type' = some "tensor")
    (hd : b.dtype = some s)
    (ha : torchAttr (lastDotComp s) = none) :
    createArgU tk (.mk b st dt ly) =
      .ok (.randomFill .float32 (b.shape.getD []) (b.device.getD "cpu"), []) ∧
    (truthyStr b.blob_path = none →
      createArgR (.mk b st dt ly) =
        .ok (.randomFill .float32 (b.shape.getD []) (b.device.getD "cpu"), [])) := by
  have hres : resolveDtype b.dtype = .dtypeObj .float32 := by
    rw [hd]
    simp [resolveDtype, ha]
  have h1 : ¬ (b.type' = some "int" ∨ b.type' = some "bool") := by
    rw [ht]
    simp
  have h2 : synthTensorU b.dtype (b.shape.getD []) (b.device.getD "cpu") =
      .ok (.randomFill .float32 (b.shape.getD []) (b.device.getD "cpu")) := by
    unfold synthTensorU
    rw [hres]
    rfl
  have left : createArgU tk (.mk b st dt ly) =
      .ok (.randomFill .float32 (b.shape.getD []) (b.device.getD "cpu"), []) := by
    rw [createArgU, if_neg h1, if_pos ht, h2]
  refine ⟨left, ?_⟩
  intro hb
  have h3 : synthTensorR b.dtype (b.shape.getD []) (b.device.getD "cpu") =
      .ok (.randomFill .float32 (b.shape.getD []) (b.device.getD "cpu")) := by
    unfold synthTensorR
    rw [hres]
    rfl
  rw [createArgR, if_neg h1, if_pos ht, hb, h3]

/-- Concrete instance of `unresolved_dtype_silently_float32`: the bogus
dtype string `torch.bogus` yields a `float32` random buffer of the declared
shape, with no warning. -/
theorem unresolved_dtype_silently_float32_witness :
    createArgU true
      (.mk ⟨some "tensor", none, some "torch.bogus", some [3], some "cpu",
            none, none, none⟩ .absent .absent .absent) =
      .ok (.randomFill .float32 [3] "cpu", []) ∧
    createArgR
      (.mk ⟨some "tensor", none, some "torch.bogus", some [3], some "cpu",
            none, none, none⟩ .absent .absent .absent) =
      .ok (.randomFill .float32 [3] "cpu", []) := by
  have h := unresolved_dtype_silently_float32 true
    ⟨some "tensor", none, some "torch.bogus", some [3], some "cpu",
     none, none, none⟩ .absent .absent .absent "torch.bogus" rfl rfl (by decide)
  exact ⟨h.1, h.2 (by decide)⟩

/-- **C10 counterexample** — On a tensor descriptor whose dtype string is
`torch.rand` — not a dtype attribute of torch, but an existing non-dtype
attribute — `getattr` succeeds, the `AttributeError` fallback never fires,
and both copies of `_create_arg_from_info` crash with the uncaught
`TypeError` raised by the dtype-probing `torch.empty(0, dtype=torch.rand)`:
materialization does fail on such inputs, and no `float32` buffer is
synthesized, so the claim as stated is false there. -/
theorem dtype_nondtype_attribute_crashes :
    createArgU true randAttrTensorInfo = .error (.typeError "rand") ∧
    createArgR randAttrTensorInfo = .error (.typeError "rand") ∧
    createArgU true randAttrTensorInfo ≠
      .ok (.randomFill .float32 [3] "cpu", []) := by
  decide

/-- One-step unfolding of the scan over a leading line. -/
theorem sassScan_cons (l : List Char) (rest : List (List Char)) (i : Nat)
    (p : Option SrcLoc) :
    sassScan (l :: rest) i p =
      (match parseSassAnn l with
       | some loc =>
         sassScan rest (i + 1) (if isInternal loc.file then p else some loc)
       | none =>
         if hasAddrMarker l then
           match p with
           | some loc =>
             (i, ⟨loc.file, loc.line, loc.column, i⟩) :: sassScan rest (i + 1) p
           | none => sassScan rest (i + 1) p
         else sassScan rest (i + 1) p) := rfl

/-- Keys below the starting line number never occur in the scan's output. -/
theorem sassScan_lookup_lt (lines : List (List Char)) :
    ∀ (i : Nat) (p : Option SrcLoc) (j : Nat), j < i →
      lookupN j (sassScan lines i p) = none := by
  induction lines with
  | nil => intro i p j hj; rfl
  | cons l rest ih =>
    intro i p j hj
    rw [sassScan_cons]
    cases hA : parseSassAnn l with
    | some loc =>
      simp only [hA]
      exact ih (i + 1) _ j (by omega)
    | none =>
      simp only [hA]
      by_cases hM : hasAddrMarker l = true
      · rw [if_pos hM]
        cases p with
        | none => exact ih (i + 1) none j (by omega)
        | some loc =>
          rw [lookupN, if_neg (by omega)]
          exact ih (i + 1) (some loc) j (by omega)
      · rw [if_neg hM]
        exact ih (i + 1) p j (by omega)

/-- One scan step extends the prefix consumed by `pendAfter`. -/
theorem pendAfter_take_succ (p : Option SrcLoc) (l : List Char)
    (rest : List (List Char)) (k : Nat) :
    pendAfter p (List.take (k + 1) (l :: rest)) =
      pendAfter (sassStep p l) (List.take k rest) := by
  rw [List.take_succ_cons]
  rfl

/-- The scan's entry for a generated-code line at 0-based offset `k`
(1-based number `i + k`) carries exactly the pending location accumulated
over the preceding lines. -/
theorem sassScan_lookup_code (lines : List (List Char)) :
    ∀ (i : Nat) (p : Option SrcLoc) (k : Nat) (hk : k < lines.length),
      parseSassAnn (lines.get ⟨k, hk⟩) = none →
      hasAddrMarker (lines.get ⟨k, hk⟩) = true →
      lookupN (i + k) (sassScan lines i p) =
        (pendAfter p (lines.take k)).map
          (fun loc => ⟨loc.file, loc.line, loc.column, i + k⟩) := by
  induction lines with
  | nil => intro i p k hk; exact absurd hk (by simp)
  | cons l rest ih =>
    intro i p k hk hA hM
    cases k with
    | zero =>
      have hA' : parseSassAnn l = none := hA
      have hM' : hasAddrMarker l = true := hM
      rw [sassScan_cons]
      simp only [hA']
      rw [if_pos hM']
      cases p with
      | none =>
        rw [sassScan_lookup_lt rest (i + 1) none (i + 0) (by omega)]
        rfl
      | some loc =>
        rw [lookupN, if_pos (by omega)]
        rfl
    | succ k' =>
      have hA' : parseSassAnn (rest.get ⟨k', by simpa using hk⟩) = none := hA
      have hM' : hasAddrMarker (rest.get ⟨k', by simpa using hk⟩) = true := hM
      have hik : i + (k' + 1) = (i + 1) + k' := by omega
      rw [sassScan_cons]
      cases hA2 : parseSassAnn l with
      | some loc =>
        simp only [hA2]
        rw [hik, pendAfter_take_succ,
            show sassStep p l = if isInternal loc.file then p else some loc from by
              unfold sassStep; rw [hA2]]
        exact ih (i + 1) _ k' (by simpa using hk) hA' hM'
      | none =>
        simp only [hA2]
        have hstep : sassStep p l = p := by
          unfold sassStep; rw [hA2]
        by_cases hM2 : hasAddrMarker l = true
        · rw [if_pos hM2]
          cases p with
          | some loc =>
            rw [lookupN, if_neg (by omega), hik, pendAfter_take_succ, hstep]
            exact ih (i + 1) (some loc) k' (by simpa using hk) hA' hM'
          | none =>
            rw [hik, pendAfter_take_succ, hstep]
            exact ih (i + 1) none k' (by simpa using hk) hA' hM'
        · rw [if_neg hM2, hik, pendAfter_take_succ, hstep]
          exact ih (i + 1) p k' (by simpa using hk) hA' hM'

/-- If the pending location never names an internal file, neither does any
entry the scan emits (internal annotations are skipped without updating the
pending state, so this is an invariant). -/
theorem sassScan_no_internal (lines : List (List Char)) :
    ∀ (i : Nat) (p : Option SrcLoc),
      (∀ loc, p = some loc → isInternal loc.file = false) →
      ∀ n e, (n, e) ∈ sassScan lines i p → isInternal e.file = false := by
  induction lines with
  | nil =>
    intro i p hp n e h
    exact absurd h (List.not_mem_nil _)
  | cons l rest ih =>
    intro i p hp n e h
    rw [sassScan_cons] at h
    cases hA : parseSassAnn l with
    | some loc =>
      simp only [hA] at h
      cases hi : isInternal loc.file with
      | true =>
        rw [if_pos hi] at h
        exact ih (i + 1) p hp n e h
      | false =>
        rw [if_neg (by simp [hi])] at h
        refine ih (i + 1) (some loc) ?_ n e h
        intro loc' hl
        cases hl
        exact hi
    | none =>
      simp only [hA] at h
      by_cases hM : hasAddrMarker l = true
      · rw [if_pos hM] at h
        cases p with
        | some loc =>
          rcases List.mem_cons.mp h with heq | hmem
          · cases heq
            exact hp loc rfl
          · exact ih (i + 1) (some loc) hp n e hmem
        | none => exact ih (i + 1) none hp n e h
      · rw [if_neg hM] at h
        exact ih (i + 1) p hp n e h

/-- Unfolding `nonInternalAnns` over a leading line. -/
theorem nonInternalAnns_cons (l : List Char) (rest : List (List Char)) :
    nonInternalAnns (l :: rest) =
      (match parseSassAnn l with
       | some loc =>
         if isInternal loc.file then nonInternalAnns rest
         else loc :: nonInternalAnns rest
       | none => nonInternalAnns rest) := by
  unfold nonInternalAnns
  rw [List.filterMap_cons]
  cases hA : parseSassAnn l with
  | none => rfl
  | some loc =>
    rw [List.filter_cons]
    cases hi : isInternal loc.file with
    | true => simp [hi]
    | false => simp [hi]

/-- Pushing an element into `lastOr`. -/
theorem lastOr_cons (x : SrcLoc) (xs : List SrcLoc) (p : Option SrcLoc) :
    lastOr (x :: xs) p = lastOr xs (some x) := by
  cases xs with
  | nil => rfl
  | cons y ys =>
    unfold lastOr
    rw [List.getLast?_cons_cons]
    obtain ⟨z, hz⟩ := Option.isSome_iff_exists.mp
      (List.getLast?_isSome.mpr (List.cons_ne_nil y ys))
    rw [hz]

/-- `lastOr` over an empty fallback is `getLast?`. -/
theorem lastOr_none (xs : List SrcLoc) : lastOr xs none = xs.getLast? := by
  unfold lastOr
  cases xs.getLast? <;> rfl

/-- The pending location after a list of lines is the last non-internal
annotation among them (falling back to the initial state). -/
theorem pendAfter_eq_lastOr (ls : List (List Char)) :
    ∀ p, pendAfter p ls = lastOr (nonInternalAnns ls) p := by
  induction ls with
  | nil => intro p; rfl
  | cons l rest ih =>
    intro p
    rw [show pendAfter p (l :: rest) = pendAfter (sassStep p l) rest from rfl, ih,
        nonInternalAnns_cons]
    cases hA : parseSassAnn l with
    | none =>
      rw [show sassStep p l = p from by unfold sassStep; rw [hA]]
    | some loc =>
      rw [show sassStep p l = if isInternal loc.file then p else some loc from by
            unfold sassStep; rw [hA]]
      cases hi : isInternal loc.file with
      | true => simp [hi]
      | false =>
        simp only [hi, Bool.false_eq_true, if_false]
        rw [lastOr_cons]

/-! ## Claim C5 about the source-mapping extractor -/

/-- **C5** — For every IR/assembly text, the extracted source mapping
assigns each generated-code line (recognized by its instruction-address
marker) the nearest preceding non-internal source annotation (the last
element of the non-internal annotations among the preceding lines);
generated-code lines before the first such annotation receive no mapping
entry (the `getLast?` of an empty list is `none`, so the lookup is `none`);
and annotations referencing internal placeholder files (`.nv_debug_ptx_txt`)
never appear in the output mapping. -/
theorem sass_mapping_nearest_preceding (text : String) :
    (∀ (k : Nat) (hk : k < (splitOnChar '\n' text.toList).length),
       parseSassAnn ((splitOnChar '\n' text.toList).get ⟨k, hk⟩) = none →
       hasAddrMarker ((splitOnChar '\n' text.toList).get ⟨k, hk⟩) = true →
       lookupN (1 + k) (extract_sass_mappings text) =
         ((nonInternalAnns ((splitOnChar '\n' text.toList).take k)).getLast?).map
           (fun loc => ⟨loc.file, loc.line, loc.column, 1 + k⟩)) ∧
    (∀ (n : Nat) (e : SassEntry),
       (n, e) ∈ extract_sass_mappings text → isInternal e.file = false) := by
  constructor
  · intro k hk hA hM
    have h := sassScan_lookup_code (splitOnChar '\n' text.toList) 1 none k hk hA hM
    rw [extract_sass_mappings, h, pendAfter_eq_lastOr, lastOr_none]
  · intro n e hmem
    exact sassScan_no_internal (splitOnChar '\n' text.toList) 1 none
      (by intro loc h; cases h) n e hmem

/-- Concrete instance of `sass_mapping_nearest_preceding` on a four-line
SASS fragment shaped like the repository's test sample: the code line
(line 4) maps to the non-internal annotation of line 2; the internal
`.nv_debug_ptx_txt` annotation of line 3 is skipped. -/
theorem sass_mapping_nearest_preceding_witness :
    lookupN 4 (extract_sass_mappings
      "Function:test_kernel\n\t//## File \"/a/b.py\", line 188\n\t//## File \".nv_debug_ptx_txt\", line 19\n        /*0000*/  MOV R1 ;") =
      some ⟨"/a/b.py", 188, 0, 4⟩ := by
  have h := (sass_mapping_nearest_preceding
      "Function:test_kernel\n\t//## File \"/a/b.py\", line 188\n\t//## File \".nv_debug_ptx_txt\", line 19\n        /*0000*/  MOV R1 ;").1
      3 (by decide) (by decide) (by decide)
  exact h.trans (by decide)

end TP
